import Mathlib

/-!
Verification development for the ProconXInput protocol translation engine
(src/Controller.cpp). The C++ source is shallowly embedded: pure functions
become Lean functions, the stateful session/registry code becomes explicit
state passing, machine bytes are `Nat` (values below 256 where the C++ type
is `uchar`), signed 16-bit axis values are `Int`, and C++ `double`
arithmetic in the axis normalizer is modelled as exact rational arithmetic.
Fallible operations return `Except` or `Option`.
-/

namespace Procon

/-- Modelled from the spec: the Button enumeration declared in
Controller.hpp (not under src/); §3 lists A, B, X, Y, stick-clicks,
shoulder/trigger pairs, d-pad directions, start/select-equivalents,
home/share, "none", "unknown". The enumerator names follow the usage in
src/Controller.cpp (buttonToReportBits, mapButtonToReport, buttonToString). -/
inductive Button where
  | A | B | X | Y
  | LStick | RStick
  | L | LZ | R | RZ
  | Home | Share
  | Plus | Minus
  | DPadUp | DPadDown | DPadLeft | DPadRight
  | None | Unknown
  deriving DecidableEq, Repr

/-- Modelled from the spec: the ButtonSource enumeration from
Controller.hpp naming the three input-report byte groups (§4.3: left,
middle, right). -/
inductive ButtonSource where
  | Left | Middle | Right
  deriving DecidableEq, Repr

/-- Modelled from the spec: Controller.hpp's 8-entry table for the left
byte group, mapping bit position to Button or None (§4.3: three fixed
8-entry tables, unused bits map to "none"). -/
def JoyconLBitmap : List Button :=
  [Button.DPadDown, Button.DPadUp, Button.DPadRight, Button.DPadLeft,
   Button.None, Button.None, Button.L, Button.LZ]

/-- Modelled from the spec: Controller.hpp's 8-entry table for the middle
byte group (§4.3). -/
def JoyconMidBitmap : List Button :=
  [Button.Minus, Button.Plus, Button.RStick, Button.LStick,
   Button.Home, Button.Share, Button.None, Button.None]

/-- Modelled from the spec: Controller.hpp's 8-entry table for the right
byte group (§4.3). -/
def JoyconRBitmap : List Button :=
  [Button.Y, Button.X, Button.B, Button.A,
   Button.None, Button.None, Button.R, Button.RZ]

/-- Embeds getButtonMap (src/Controller.cpp lines 166-177). The C++
default branch throws std::logic_error for an out-of-domain ButtonSource;
in the embedding ButtonSource has exactly the three valid values, so the
function is total over them. -/
def getButtonMap (s : ButtonSource) : List Button :=
  match s with
  | ButtonSource.Left => JoyconLBitmap
  | ButtonSource.Middle => JoyconMidBitmap
  | ButtonSource.Right => JoyconRBitmap

/-- Embeds pullButtonsFromByte (src/Controller.cpp lines 179-185): loop i
from 0 to 7 over the byte group's table, skip Button::None slots, and push
the pair of the slot's Button and whether bit i of c is set, appending to
the accumulator vector `out`. -/
def pullButtonsFromByte (c : Nat) (src : ButtonSource)
    (out : List (Button × Bool)) : List (Button × Bool) :=
  out ++ (List.range 8).filterMap (fun i =>
    let m := (getButtonMap src).getD i Button.None
    if m = Button.None then none
    else some (m, (c &&& (1 <<< i)) != 0))

/-- Embeds the InputPacket struct (src/Controller.cpp lines 79-86):
8 header bytes, 5 unknown bytes, one byte each of right/middle/left
buttons, 6 packed stick-sample bytes. Byte fields hold uchar values. -/
structure InputPacket where
  header : Fin 8 → Nat
  unknown : Fin 5 → Nat
  rightButtons : Nat
  middleButtons : Nat
  leftButtons : Nat
  sticks : Fin 6 → Nat

/-- Byte size of the InputPacket layout: 8 + 5 + 1 + 1 + 1 + 6 fields of
one byte each, no padding (all fields are uint8_t). -/
def sizeofInputPacket : Nat := 8 + 5 + 1 + 1 + 1 + 6

/-- Embeds the memcpy in pollInput (src/Controller.cpp line 284): the
first sizeof(InputPacket) bytes of the response buffer, read at the
offsets fixed by the struct layout, become the InputPacket fields. The
buffer is modelled as a byte-at-offset function, matching the fixed-size
array the transport returns. -/
def decodeInputPacket (buf : Nat → Nat) : InputPacket where
  header := fun i => buf i.val
  unknown := fun i => buf (8 + i.val)
  rightButtons := buf 13
  middleButtons := buf 14
  leftButtons := buf 15
  sticks := fun i => buf (16 + i.val)

/-- Embeds lerp (src/Controller.cpp lines 88-90); C++ double arithmetic is
modelled as exact rational arithmetic. -/
def lerp (tmin tmax t : ℚ) : ℚ :=
  (1 - t) * tmin + t * tmax

/-- Models std::clamp over the rationals: values below lo become lo,
values above hi become hi. -/
def clampQ (v lo hi : ℚ) : ℚ :=
  if v < lo then lo else if hi < v then hi else v

/-- Models the C++ static_cast from double to short for in-range values:
truncation toward zero. -/
def castToShort (d : ℚ) : ℤ :=
  if d < 0 then ⌈d⌉ else ⌊d⌋

/-- Embeds expandUChar (src/Controller.cpp lines 91-98): divide the sample
by 255, clamp to the unit interval, linearly interpolate between the
signed 16-bit minimum and maximum, and cast the double back to short.
Double arithmetic is modelled as exact rational arithmetic. -/
def expandUChar (c : Nat) : ℤ :=
  castToShort (lerp (-32768) 32767 (clampQ ((c : ℚ) / 255) 0 1))

/-- Embeds the XUSB_REPORT structure as used by src/Controller.cpp: a
16-bit button field, two 8-bit trigger intensities, and four signed 16-bit
thumb-stick axes. The report is zero-initialized in pollInput. -/
structure XUSB_REPORT where
  wButtons : Nat := 0
  bLeftTrigger : Nat := 0
  bRightTrigger : Nat := 0
  sThumbLX : ℤ := 0
  sThumbLY : ℤ := 0
  sThumbRX : ℤ := 0
  sThumbRY : ℤ := 0
  deriving DecidableEq, Repr

/-- Embeds buttonToReportBits (src/Controller.cpp lines 187-222): the
16-bit mask each Button contributes to the outgoing button field; the
default branch returns 0x0000. -/
def buttonToReportBits (b : Button) : Nat :=
  match b with
  | Button.DPadUp => 0x0001
  | Button.DPadDown => 0x0002
  | Button.DPadLeft => 0x0004
  | Button.DPadRight => 0x0008
  | Button.Plus => 0x0010
  | Button.Minus => 0x0020
  | Button.LStick => 0x0040
  | Button.RStick => 0x0080
  | Button.L => 0x0100
  | Button.R => 0x0200
  | Button.Home => 0x0400
  | Button.A => 0x1000
  | Button.B => 0x2000
  | Button.X => 0x4000
  | Button.Y => 0x8000
  | _ => 0x0000

/-- Embeds mapButtonToReport (src/Controller.cpp lines 224-236): the two
trigger buttons set the corresponding trigger axis to the BYTE maximum and
leave the button field alone; every other Button ORs its report bits into
the button field. -/
def mapButtonToReport (b : Button) (report : XUSB_REPORT) : XUSB_REPORT :=
  match b with
  | Button.LZ => { report with bLeftTrigger := 255 }
  | Button.RZ => { report with bRightTrigger := 255 }
  | _ => { report with wButtons := report.wButtons ||| buttonToReportBits b }

/-- Stick decode in mapInputToReport (src/Controller.cpp line 239). -/
def decodeLeftX (sticks : Fin 6 → Nat) : Nat :=
  ((sticks 1 &&& 0x0F) <<< 4) ||| ((sticks 0 &&& 0xF0) >>> 4)

/-- Stick decode in mapInputToReport (src/Controller.cpp line 240). -/
def decodeLeftY (sticks : Fin 6 → Nat) : Nat :=
  sticks 2

/-- Stick decode in mapInputToReport (src/Controller.cpp line 241). -/
def decodeRightX (sticks : Fin 6 → Nat) : Nat :=
  ((sticks 4 &&& 0x0F) <<< 4) ||| ((sticks 3 &&& 0xF0) >>> 4)

/-- Stick decode in mapInputToReport (src/Controller.cpp line 242). -/
def decodeRightY (sticks : Fin 6 → Nat) : Nat :=
  sticks 5

/-- Embeds mapInputToReport (src/Controller.cpp lines 238-269): decode the
four stick samples, expand each to a signed axis, collect the button pairs
from the left, right, then middle byte groups, and apply every pressed
button to the report. -/
def mapInputToReport (p : InputPacket) (report : XUSB_REPORT) : XUSB_REPORT :=
  let r1 := { report with
    sThumbLX := expandUChar (decodeLeftX p.sticks)
    sThumbLY := expandUChar (decodeLeftY p.sticks)
    sThumbRX := expandUChar (decodeRightX p.sticks)
    sThumbRY := expandUChar (decodeRightY p.sticks) }
  let buttons :=
    pullButtonsFromByte p.middleButtons ButtonSource.Middle
      (pullButtonsFromByte p.rightButtons ButtonSource.Right
        (pullButtonsFromByte p.leftButtons ButtonSource.Left []))
  buttons.foldl (fun r pr => if pr.2 then mapButtonToReport pr.1 r else r) r1

/-- Modelled from the spec: the virtual-controller connection states of
the external ViGEm subsystem (§3: connection state is one of the identity
fields; §4.4: a freshly initialized target is not connected, a successful
plug-in makes it connected). -/
inductive VigemState where
  | New | Initialized | Connected | Disconnected
  deriving DecidableEq, Repr

/-- Embeds the VIGEM_TARGET identity record as used by
src/Controller.cpp: the four fields read by targetEquals (lines 99-105). -/
structure VIGEM_TARGET where
  ProductId : Nat
  SerialNo : Nat
  State : VigemState
  VendorId : Nat
  deriving DecidableEq, Repr

/-- Modelled from the spec: VIGEM_TARGET_INIT (external ViGEm macro called
at src/Controller.cpp line 29) initializes a target that is not yet
connected. -/
def VIGEM_TARGET_INIT : VIGEM_TARGET :=
  { ProductId := 0, SerialNo := 0, State := VigemState.Initialized, VendorId := 0 }

/-- Embeds the Controller session state (fields used by
src/Controller.cpp; declared in Controller.hpp). The id field models the
object's address: operator== (lines 55-57) is reference identity. The
rumbleCounter is modelled from the spec (glossary: subcommands are tagged
with an incrementing id). -/
structure Controller where
  id : Nat
  vController : VIGEM_TARGET
  deviceOpen : Bool
  currentLed : Nat := 0
  largeMotor : Nat := 0
  smallMotor : Nat := 0
  lastCommand : Nat := 0
  rumbleCounter : Nat := 0
  deriving DecidableEq, Repr

/-- Embeds the Controller constructor (src/Controller.cpp lines 28-32):
initialize the virtual target, start with a null device handle. -/
def Controller.construct (id : Nat) : Controller :=
  { id := id, vController := VIGEM_TARGET_INIT, deviceOpen := false }

/-- Embeds the registration in the Controller constructor (lines 30-31):
under the registry lock, append the new session to the process-wide
controllers list. -/
def constructController (registry : List Controller) (id : Nat) :
    List Controller × Controller :=
  let c := Controller.construct id
  (registry ++ [c], c)

/-- Embeds targetEquals (src/Controller.cpp lines 99-105): two targets
compare equal when product id, serial, connection state and vendor id are
all equal. -/
def targetEquals (lhs rhs : VIGEM_TARGET) : Bool :=
  lhs.ProductId == rhs.ProductId &&
  lhs.SerialNo == rhs.SerialNo &&
  lhs.State == rhs.State &&
  lhs.VendorId == rhs.VendorId

/-- Feedback-state update performed by vigemCallback when a session
matches (src/Controller.cpp lines 118-121): exactly the LED index and the
two motor levels are overwritten. -/
def applyFeedback (con : Controller) (lm sm led : Nat) : Controller :=
  { con with currentLed := led, largeMotor := lm, smallMotor := sm }

/-- Embeds vigemCallback (src/Controller.cpp lines 109-123): under the
registry lock, linearly scan for the first session whose virtual target
compares equal to the callback identity; if found, update its three
feedback fields; otherwise leave every session unchanged. -/
def vigemCallback : List Controller → VIGEM_TARGET → Nat → Nat → Nat → List Controller
  | [], _, _, _, _ => []
  | con :: rest, t, lm, sm, led =>
    if targetEquals con.vController t then applyFeedback con lm sm led :: rest
    else con :: vigemCallback rest t lm sm led

/-- Error taxonomy (§7). In the C++ source every throw is a
ControllerException carrying a distinct message; the spec names the cases
DeviceError (lines 129, 131, 134), HandshakeError (line 138), PlugInError
(line 150) and PollError (line 280). -/
inductive CtrlError where
  | DeviceError | HandshakeError | PlugInError | PollError
  deriving DecidableEq, Repr

/-- Wire constant (src/Controller.cpp line 64). -/
def getMAC : List Nat := [0x80, 0x01]

/-- Wire constant (src/Controller.cpp line 65). -/
def handshake : List Nat := [0x80, 0x02]

/-- Wire constant (src/Controller.cpp line 66). -/
def switchBaudrate : List Nat := [0x80, 0x03]

/-- Wire constant (src/Controller.cpp line 67). -/
def HIDOnlyMode : List Nat := [0x80, 0x04]

/-- Wire constant (src/Controller.cpp line 68). -/
def enable : List Nat := [0x01]

/-- Wire constant (src/Controller.cpp line 69). -/
def rumbleCommand : Nat := 0x48

/-- Wire constant (src/Controller.cpp line 70). -/
def imuDataCommand : Nat := 0x40

/-- Wire constant (src/Controller.cpp line 72). -/
def ledCommand : Nat := 0x30

/-- Wire constant (src/Controller.cpp line 73). -/
def led : List Nat := [0x1]

/-- Wire constant (src/Controller.cpp line 76). -/
def getInput : Nat := 0x1f

/-- Wire constant (src/Controller.cpp line 41): the disconnect sequence
sent from the destructor. -/
def disconnect : List Nat := [0x80, 0x05]

/-- Messages sent to the physical device, recorded as a trace. A raw
exchange carries its bytes; a subcommand (envelope assembled by
Controller.hpp's sendSubcommand, not under src/ — modelled from the spec:
subcommand id byte + command + payload, id incrementing) carries its tag,
command byte, subcommand byte and payload. -/
inductive SentMsg where
  | exch (bytes : List Nat)
  | subcmd (tag : Nat) (command : Nat) (sub : Nat) (payload : List Nat)
  deriving DecidableEq, Repr

/-- Modelled from the spec: sendSubcommand (Controller.hpp, not under
src/) tags the envelope with the session's incrementing subcommand id and
advances the counter (glossary: a subcommand is tagged with an
incrementing id). -/
def sendSubcommand (con : Controller) (command sub : Nat) (payload : List Nat) :
    Controller × SentMsg :=
  ({ con with rumbleCounter := con.rumbleCounter + 1 },
   SentMsg.subcmd con.rumbleCounter command sub payload)

/-- Modelled from the spec: the expected product identity of the physical
controller (Procon_ID in Controller.hpp, not under src/; §4.4: opening
fails if the device does not match the expected product identity). -/
def Procon_ID : Nat := 0x2009

/-- Physical-device enumeration record: the fields of hid_device_info read
by openDevice (src/Controller.cpp lines 128-132). -/
structure HidDeviceInfo where
  product_id : Nat
  path : Nat
  deriving DecidableEq, Repr

/-- Result of openDevice: the outcome, the updated session, and the trace
of messages sent to the physical device. -/
structure OpenResult where
  result : Except CtrlError Unit
  con : Controller
  sent : List SentMsg
  deriving Repr

/-- Embeds Controller::openDevice (src/Controller.cpp lines 124-156).
Inputs beyond the session: the enumeration record (null modelled as none),
whether hid_open_path succeeds, an oracle giving the success of each
numbered exchange (the code only tests the first, the handshake at line
137; the results of exchanges 1-3 are discarded at lines 140-142), whether
vigem_target_plugin succeeds, and the current time. On plug-in failure the
device handle is released (line 149); on success the target becomes
connected. -/
def openDevice (con : Controller) (dev : Option HidDeviceInfo) (hidOpenOk : Bool)
    (exchOk : Nat → Bool) (pluginOk : Bool) (now : Nat) : OpenResult :=
  match dev with
  | none => { result := Except.error CtrlError.DeviceError, con := con, sent := [] }
  | some d =>
    if d.product_id ≠ Procon_ID then
      { result := Except.error CtrlError.DeviceError, con := con, sent := [] }
    else if ¬ hidOpenOk then
      { result := Except.error CtrlError.DeviceError, con := con, sent := [] }
    else
      let con1 := { con with deviceOpen := true }
      if ¬ exchOk 0 then
        { result := Except.error CtrlError.HandshakeError, con := con1,
          sent := [SentMsg.exch handshake] }
      else
        let con2 := { con1 with lastCommand := now }
        let (con3, m1) := sendSubcommand con2 0x1 rumbleCommand enable
        let (con4, m2) := sendSubcommand con3 0x1 imuDataCommand enable
        let (con5, m3) := sendSubcommand con4 0x1 ledCommand led
        let sent := [SentMsg.exch handshake, SentMsg.exch switchBaudrate,
                     SentMsg.exch handshake, SentMsg.exch HIDOnlyMode, m1, m2, m3]
        if ¬ pluginOk then
          { result := Except.error CtrlError.PlugInError,
            con := { con5 with deviceOpen := false }, sent := sent }
        else
          { result := Except.ok (),
            con := { con5 with
              vController := { con5.vController with State := VigemState.Connected } },
            sent := sent }

/-- Actions performed by the destructor, in order. -/
inductive TeardownAction where
  | unplug
  | send (bytes : List Nat)
  | deregister
  deriving DecidableEq, Repr

/-- Embeds the Controller destructor (src/Controller.cpp lines 35-53):
under the registry lock, unplug the virtual target if it is connected,
send the disconnect sequence if the device handle is open (the exchange
result — the sendOk argument — is discarded), then erase the first
registry entry that is reference-equal to this session. -/
def destroyController (registry : List Controller) (con : Controller)
    (_sendOk : Bool) : List Controller × List TeardownAction :=
  let unplugActs :=
    if con.vController.State = VigemState.Connected then [TeardownAction.unplug] else []
  let sendActs :=
    if con.deviceOpen then [TeardownAction.send disconnect] else []
  (registry.eraseP (fun other => con.id == other.id),
   unplugActs ++ sendActs ++ [TeardownAction.deregister])

/-- Embeds Controller::pollInput (src/Controller.cpp lines 274-292): a
closed device makes the call a no-op; a failed getInput exchange (dat =
none) raises PollError; a response whose first byte is not 0x30 is
decoded through the InputPacket layout, mapped onto a zero-initialized
report and submitted (the submitted report is the returned value; a
ViGEm submission error code is only logged); the 0x30 sentinel submits
nothing. The response buffer is the fixed-size byte array returned by
sendCommand, modelled as a byte-at-offset function. -/
def pollInput (con : Controller) (dat : Option (Nat → Nat)) :
    Except CtrlError (Option XUSB_REPORT) :=
  if ¬ con.deviceOpen then Except.ok none
  else
    match dat with
    | none => Except.error CtrlError.PollError
    | some buf =>
      if buf 0 ≠ 0x30 then
        Except.ok (some (mapInputToReport (decodeInputPacket buf) {}))
      else
        Except.ok none

/-- Spec-side helper: the Button occupying bit position i of a byte
group's table (§4.3). -/
def slotButton (src : ButtonSource) (i : Nat) : Button :=
  (getButtonMap src).getD i Button.None

/-- Spec-side helper: the bit positions of a byte group's table that are
not mapped to "none" (§4.3, §8). -/
def nonNoneSlots (src : ButtonSource) : List Nat :=
  (List.range 8).filter (fun i => slotButton src i != Button.None)

/-- Stick bytes of the worked example in §8 of the spec:
[0x34, 0x05, 0x78, 0x9A, 0x0B, 0xCD]. -/
def exampleSticks : Fin 6 → Nat
  | 0 => 0x34
  | 1 => 0x05
  | 2 => 0x78
  | 3 => 0x9A
  | 4 => 0x0B
  | 5 => 0xCD

/-- An InputPacket carrying the §8 example stick bytes. -/
def examplePacket : InputPacket :=
  { header := fun _ => 0, unknown := fun _ => 0,
    rightButtons := 0, middleButtons := 0, leftButtons := 0,
    sticks := exampleSticks }

/-- A concrete session whose virtual controller is connected and whose
device handle is open, as left behind by a successful openDevice. -/
def exampleConnected : Controller :=
  { id := 0,
    vController :=
      { ProductId := 1, SerialNo := 2, State := VigemState.Connected, VendorId := 3 },
    deviceOpen := true }

end Procon

namespace Procon

set_option maxRecDepth 4000

theorem land_f0_shr : ∀ a < 256, (a &&& 0xF0) >>> 4 = a / 16 := by decide

theorem land_0f_shl : ∀ b < 256, (b &&& 0x0F) <<< 4 = b % 16 * 16 := by decide

theorem mul16_lor : ∀ u < 16, ∀ v < 16, u * 16 ||| v = u * 16 + v := by decide

theorem decodeX_eq (a b : Nat) (ha : a < 256) (hb : b < 256) :
    ((b &&& 0x0F) <<< 4) ||| ((a &&& 0xF0) >>> 4) = b % 16 * 16 + a / 16 := by
  rw [land_0f_shl b hb, land_f0_shr a ha]
  exact mul16_lor (b % 16) (Nat.mod_lt _ (by norm_num)) (a / 16) (by omega)

theorem decodeLeftX_eq (s : Fin 6 → Nat) (h0 : s 0 < 256) (h1 : s 1 < 256) :
    decodeLeftX s = s 1 % 16 * 16 + s 0 / 16 :=
  decodeX_eq (s 0) (s 1) h0 h1

theorem decodeRightX_eq (s : Fin 6 → Nat) (h3 : s 3 < 256) (h4 : s 4 < 256) :
    decodeRightX s = s 4 % 16 * 16 + s 3 / 16 :=
  decodeX_eq (s 3) (s 4) h3 h4

theorem mapButtonToReport_thumbs (b : Button) (r : XUSB_REPORT) :
    (mapButtonToReport b r).sThumbLX = r.sThumbLX ∧
    (mapButtonToReport b r).sThumbLY = r.sThumbLY ∧
    (mapButtonToReport b r).sThumbRX = r.sThumbRX ∧
    (mapButtonToReport b r).sThumbRY = r.sThumbRY := by
  cases b <;> exact ⟨rfl, rfl, rfl, rfl⟩

theorem foldButtons_thumbs (l : List (Button × Bool)) (r : XUSB_REPORT) :
    ((l.foldl (fun r pr => if pr.2 then mapButtonToReport pr.1 r else r) r).sThumbLX
        = r.sThumbLX ∧
     (l.foldl (fun r pr => if pr.2 then mapButtonToReport pr.1 r else r) r).sThumbLY
        = r.sThumbLY ∧
     (l.foldl (fun r pr => if pr.2 then mapButtonToReport pr.1 r else r) r).sThumbRX
        = r.sThumbRX ∧
     (l.foldl (fun r pr => if pr.2 then mapButtonToReport pr.1 r else r) r).sThumbRY
        = r.sThumbRY) := by
  induction l generalizing r with
  | nil => exact ⟨rfl, rfl, rfl, rfl⟩
  | cons hd tl ih =>
    rw [List.foldl_cons]
    by_cases h : hd.2 = true
    · rw [if_pos h]
      obtain ⟨h1, h2, h3, h4⟩ := ih (mapButtonToReport hd.1 r)
      obtain ⟨g1, g2, g3, g4⟩ := mapButtonToReport_thumbs hd.1 r
      exact ⟨h1.trans g1, h2.trans g2, h3.trans g3, h4.trans g4⟩
    · rw [if_neg h]
      exact ih r

/-- C1: for every InputPacket, the decoded stick values placed in the
outgoing report are the nibble-packed combinations of the six stick
bytes — LeftX combines the low nibble of byte 1 with the high nibble of
byte 0, LeftY is byte 2, RightX combines the low nibble of byte 4 with
the high nibble of byte 3, RightY is byte 5 — and on the §8 example bytes
[0x34, 0x05, 0x78, 0x9A, 0x0B, 0xCD] the decode yields LeftX = 0x53,
LeftY = 0x78, RightX = 0xB9, RightY = 0xCD. -/
theorem C1_stick_decode (p : InputPacket) (h : ∀ i, p.sticks i < 256) :
    ((mapInputToReport p {}).sThumbLX
        = expandUChar (p.sticks 1 % 16 * 16 + p.sticks 0 / 16) ∧
     (mapInputToReport p {}).sThumbLY = expandUChar (p.sticks 2) ∧
     (mapInputToReport p {}).sThumbRX
        = expandUChar (p.sticks 4 % 16 * 16 + p.sticks 3 / 16) ∧
     (mapInputToReport p {}).sThumbRY = expandUChar (p.sticks 5)) ∧
    (decodeLeftX exampleSticks = 0x53 ∧ decodeLeftY exampleSticks = 0x78 ∧
     decodeRightX exampleSticks = 0xB9 ∧ decodeRightY exampleSticks = 0xCD) := by
  constructor
  · obtain ⟨e1, e2, e3, e4⟩ := foldButtons_thumbs
      (pullButtonsFromByte p.middleButtons ButtonSource.Middle
        (pullButtonsFromByte p.rightButtons ButtonSource.Right
          (pullButtonsFromByte p.leftButtons ButtonSource.Left [])))
      { sThumbLX := expandUChar (decodeLeftX p.sticks)
        sThumbLY := expandUChar (decodeLeftY p.sticks)
        sThumbRX := expandUChar (decodeRightX p.sticks)
        sThumbRY := expandUChar (decodeRightY p.sticks) }
    refine ⟨?_, ?_, ?_, ?_⟩
    · exact e1.trans (by rw [decodeLeftX_eq p.sticks (h 0) (h 1)])
    · exact e2.trans rfl
    · exact e3.trans (by rw [decodeRightX_eq p.sticks (h 3) (h 4)])
    · exact e4.trans rfl
  · exact ⟨by decide, by decide, by decide, by decide⟩

theorem C1_stick_decode_witness :
    (mapInputToReport examplePacket {}).sThumbLX
      = expandUChar (examplePacket.sticks 1 % 16 * 16 + examplePacket.sticks 0 / 16) :=
  ((C1_stick_decode examplePacket (by decide)).1).1

theorem castToShort_intCast (n : ℤ) : castToShort ((n : ℚ)) = n := by
  unfold castToShort
  split
  · exact Int.ceil_intCast n
  · exact Int.floor_intCast n

theorem expandUChar_eq (c : Nat) (h : c ≤ 255) :
    expandUChar c = 257 * (c : ℤ) - 32768 := by
  unfold expandUChar clampQ lerp
  have h0 : ¬ ((c : ℚ) / 255 < 0) := by
    rw [not_lt]
    positivity
  have h1 : ¬ ((1 : ℚ) < (c : ℚ) / 255) := by
    rw [not_lt, div_le_one (by norm_num)]
    exact_mod_cast h
  rw [if_neg h0, if_neg h1]
  have key : (1 - (c : ℚ) / 255) * (-32768) + ((c : ℚ) / 255) * 32767
      = ((257 * (c : ℤ) - 32768 : ℤ) : ℚ) := by
    push_cast
    field_simp
    ring
  rw [key, castToShort_intCast]

/-- C2: the axis normalizer expandUChar is non-decreasing on samples in
[0, 255], maps 0 to the signed 16-bit minimum -32768 exactly, and maps
255 to the signed 16-bit maximum 32767 exactly (double arithmetic
modelled as exact rational arithmetic, under which the interpolation at
sample c is exactly the integer 257 * c - 32768). -/
theorem C2_expandUChar (a b : Nat) (hab : a ≤ b) (hb : b ≤ 255) :
    expandUChar a ≤ expandUChar b ∧
    expandUChar 0 = -32768 ∧ expandUChar 255 = 32767 := by
  refine ⟨?_, ?_, ?_⟩
  · rw [expandUChar_eq a (hab.trans hb), expandUChar_eq b hb]
    omega
  · rw [expandUChar_eq 0 (by norm_num)]
    norm_num
  · rw [expandUChar_eq 255 (by norm_num)]
    norm_num

theorem C2_expandUChar_witness :
    expandUChar 0 ≤ expandUChar 255 ∧
    expandUChar 0 = -32768 ∧ expandUChar 255 = 32767 :=
  C2_expandUChar 0 255 (by norm_num) (by norm_num)

/-- C5: for every byte c and byte group, decoding the byte against the
group's 8-entry table yields exactly one (Button, pressed) pair per table
slot not mapped to None — in slot order, carrying that slot's Button —
none for the None slots, and the pressed flag of slot i is exactly bit i
of c. -/
theorem C5_pullButtons (c : Nat) (src : ButtonSource) :
    pullButtonsFromByte c src [] =
      (nonNoneSlots src).map (fun i => (slotButton src i, (c &&& (1 <<< i)) != 0)) ∧
    ∀ i : Nat, ((c &&& (1 <<< i)) != 0) = c.testBit i := by
  constructor
  · cases src <;> rfl
  · intro i
    rw [Nat.one_shiftLeft, Nat.and_two_pow]
    cases h : c.testBit i <;> simp [Nat.pow_eq_zero]

theorem vigemCallback_length (regs : List Controller) (t : VIGEM_TARGET)
    (lm sm led : Nat) :
    (vigemCallback regs t lm sm led).length = regs.length := by
  induction regs with
  | nil => rfl
  | cons c rest ih =>
    simp only [vigemCallback]
    split
    · simp
    · simp [ih]

theorem vigemCallback_no_match (regs : List Controller) (t : VIGEM_TARGET)
    (lm sm led : Nat) (h : ∀ c ∈ regs, targetEquals c.vController t = false) :
    vigemCallback regs t lm sm led = regs := by
  induction regs with
  | nil => rfl
  | cons c rest ih =>
    simp only [vigemCallback]
    rw [if_neg (by simp [h c (List.mem_cons_self c rest)])]
    rw [ih (fun c' hc' => h c' (List.mem_cons_of_mem _ hc'))]

theorem vigemCallback_first_match (t : VIGEM_TARGET) (lm sm led : Nat) :
    ∀ (pre : List Controller) (c : Controller) (post : List Controller),
      (∀ c' ∈ pre, targetEquals c'.vController t = false) →
      targetEquals c.vController t = true →
      vigemCallback (pre ++ c :: post) t lm sm led
        = pre ++ applyFeedback c lm sm led :: post := by
  intro pre
  induction pre with
  | nil =>
    intro c post _ hc
    simp only [List.nil_append, vigemCallback]
    rw [if_pos hc]
  | cons p pre' ih =>
    intro c post hpre hc
    simp only [List.cons_append, vigemCallback]
    rw [if_neg (by simp [hpre p (List.mem_cons_self p pre')])]
    exact congrArg (fun l => p :: l)
      (ih c post (fun c' h' => hpre c' (List.mem_cons_of_mem _ h')) hc)

/-- C3: the feedback correlator scans the registry for the first session
whose virtual-controller identity matches the callback identity on all
four fields (product id, serial, connection state, vendor id — the
characterization of targetEquals is part of the statement); a match has
exactly its three feedback fields overwritten with the callback values
and every other field and every other session kept; with no match the
registry is returned unchanged. -/
theorem C3_vigemCallback (regs : List Controller) (t : VIGEM_TARGET) (lm sm led : Nat) :
    (vigemCallback regs t lm sm led).length = regs.length ∧
    ((∀ c ∈ regs, targetEquals c.vController t = false) →
        vigemCallback regs t lm sm led = regs) ∧
    (∀ (pre : List Controller) (c : Controller) (post : List Controller),
        regs = pre ++ c :: post →
        (∀ c' ∈ pre, targetEquals c'.vController t = false) →
        targetEquals c.vController t = true →
        vigemCallback regs t lm sm led = pre ++ applyFeedback c lm sm led :: post) ∧
    (∀ c : Controller,
        (applyFeedback c lm sm led).largeMotor = lm ∧
        (applyFeedback c lm sm led).smallMotor = sm ∧
        (applyFeedback c lm sm led).currentLed = led ∧
        (applyFeedback c lm sm led).id = c.id ∧
        (applyFeedback c lm sm led).vController = c.vController ∧
        (applyFeedback c lm sm led).deviceOpen = c.deviceOpen ∧
        (applyFeedback c lm sm led).lastCommand = c.lastCommand ∧
        (applyFeedback c lm sm led).rumbleCounter = c.rumbleCounter) ∧
    (∀ x y : VIGEM_TARGET, targetEquals x y = true ↔
        (x.ProductId = y.ProductId ∧ x.SerialNo = y.SerialNo ∧
         x.State = y.State ∧ x.VendorId = y.VendorId)) := by
  refine ⟨vigemCallback_length regs t lm sm led,
    fun h => vigemCallback_no_match regs t lm sm led h,
    fun pre c post hregs hpre hc => by
      subst hregs
      exact vigemCallback_first_match t lm sm led pre c post hpre hc,
    fun c => ⟨rfl, rfl, rfl, rfl, rfl, rfl, rfl, rfl⟩,
    fun x y => by simp [targetEquals, Bool.and_eq_true, beq_iff_eq, and_assoc]⟩

theorem C3_vigemCallback_witness :
    vigemCallback [Controller.construct 0] VIGEM_TARGET_INIT 7 8 9
      = [applyFeedback (Controller.construct 0) 7 8 9] :=
  (C3_vigemCallback [Controller.construct 0] VIGEM_TARGET_INIT 7 8 9).2.2.1
    [] (Controller.construct 0) [] rfl (by simp) (by decide)

/-- C4: a successful input exchange whose response starts with the 0x30
sentinel byte submits nothing: pollInput returns without decoding or
submitting a report for that tick. -/
theorem C4_sentinel (con : Controller) (buf : Nat → Nat)
    (hopen : con.deviceOpen = true) (hs : buf 0 = 0x30) :
    pollInput con (some buf) = Except.ok none := by
  simp [pollInput, hopen, hs]

theorem C4_sentinel_witness :
    pollInput { Controller.construct 0 with deviceOpen := true }
      (some (fun _ => 0x30)) = Except.ok none :=
  C4_sentinel { Controller.construct 0 with deviceOpen := true }
    (fun _ => 0x30) rfl rfl

/-- C10: the InputPacket layout spans exactly 22 bytes; the decode is a
raw copy of the first 22 bytes of the response buffer — it depends on
nothing beyond offset 21, and it does read offset 21 (two buffers equal
below offset 21 but different there decode differently); and pollInput
applies the decode to every non-sentinel successful response with no
length precondition checked anywhere. -/
theorem C10_decode_bounds :
    sizeofInputPacket = 22 ∧
    (∀ b1 b2 : Nat → Nat, (∀ i < 22, b1 i = b2 i) →
        decodeInputPacket b1 = decodeInputPacket b2) ∧
    (∀ (con : Controller) (buf : Nat → Nat), con.deviceOpen = true → buf 0 ≠ 0x30 →
        pollInput con (some buf)
          = Except.ok (some (mapInputToReport (decodeInputPacket buf) {}))) ∧
    (decodeInputPacket (fun i => if i = 21 then 1 else 0)).sticks 5
      ≠ (decodeInputPacket (fun _ => 0)).sticks 5 := by
  refine ⟨rfl, ?_, ?_, by decide⟩
  · intro b1 b2 h
    simp only [decodeInputPacket, InputPacket.mk.injEq]
    refine ⟨?_, ?_, ?_, ?_, ?_, ?_⟩
    · funext i
      exact h i.val (by have := i.isLt; omega)
    · funext i
      exact h (8 + i.val) (by have := i.isLt; omega)
    · exact h 13 (by norm_num)
    · exact h 14 (by norm_num)
    · exact h 15 (by norm_num)
    · funext i
      exact h (16 + i.val) (by have := i.isLt; omega)
  · intro con buf hopen hs
    simp [pollInput, hopen, hs]

/-- C6: with a valid enumeration record and an openable device path, the
Handshaking-to-Active transition sends, in strict order, handshake,
switch-baud-rate, handshake again, HID-only-mode, and then the rumble,
IMU and LED feature-enable subcommands carrying the strictly increasing
tags counter, counter + 1, counter + 2; it results in a HandshakeError
exactly when the first handshake exchange fails, and when the first
handshake succeeds the later exchanges never shorten or fail the command
sequence. -/
theorem C6_openDevice (con : Controller) (d : HidDeviceInfo) (exchOk : Nat → Bool)
    (pluginOk : Bool) (now : Nat) (hpid : d.product_id = Procon_ID) :
    ((openDevice con (some d) true exchOk pluginOk now).result
        = Except.error CtrlError.HandshakeError ↔ exchOk 0 = false) ∧
    (exchOk 0 = true →
      (openDevice con (some d) true exchOk pluginOk now).sent
        = [SentMsg.exch handshake, SentMsg.exch switchBaudrate,
           SentMsg.exch handshake, SentMsg.exch HIDOnlyMode,
           SentMsg.subcmd con.rumbleCounter 0x1 rumbleCommand enable,
           SentMsg.subcmd (con.rumbleCounter + 1) 0x1 imuDataCommand enable,
           SentMsg.subcmd (con.rumbleCounter + 1 + 1) 0x1 ledCommand led]) ∧
    (exchOk 0 = false →
      (openDevice con (some d) true exchOk pluginOk now).sent
        = [SentMsg.exch handshake]) := by
  cases hex : exchOk 0 <;> cases hpl : pluginOk <;>
    simp [openDevice, sendSubcommand, hpid, hex, hpl]

theorem C6_openDevice_witness :
    (openDevice (Controller.construct 0) (some { product_id := Procon_ID, path := 0 })
        true (fun _ => true) true 5).sent
      = [SentMsg.exch handshake, SentMsg.exch switchBaudrate,
         SentMsg.exch handshake, SentMsg.exch HIDOnlyMode,
         SentMsg.subcmd (Controller.construct 0).rumbleCounter 0x1 rumbleCommand enable,
         SentMsg.subcmd ((Controller.construct 0).rumbleCounter + 1) 0x1 imuDataCommand enable,
         SentMsg.subcmd ((Controller.construct 0).rumbleCounter + 1 + 1) 0x1 ledCommand led] :=
  (C6_openDevice (Controller.construct 0) { product_id := Procon_ID, path := 0 }
    (fun _ => true) true 5 rfl).2.1 rfl

/-- C7 fails as stated: the constructor registers the session in the
process-wide registry before openDevice runs, so at the moment openDevice
raises a DeviceError the just-constructed partial session is still
registered — here a session constructed into an empty registry is a
member of the registry while openDevice (null device record) reports the
error. -/
theorem C7_counterexample :
    (openDevice (constructController [] 0).2 none true (fun _ => true) true 0).result
        = Except.error CtrlError.DeviceError ∧
    (constructController [] 0).2 ∈ (constructController [] 0).1 := by
  exact ⟨rfl, by simp [constructController]⟩

/-- C7 amended: DeviceError, HandshakeError and PlugInError are raised
synchronously by openDevice and on every such error the session holds no
plugged-in virtual controller (the virtual target is never connected on
an error path, and on PlugInError the physical device handle has been
released); the registration made by the constructor, however, persists —
openDevice neither adds nor removes registry entries, and the entry is
only removed by the destructor. -/
theorem C7_establishment_errors (con : Controller) (dev : Option HidDeviceInfo)
    (hidOpenOk : Bool) (exchOk : Nat → Bool) (pluginOk : Bool) (now : Nat)
    (e : CtrlError)
    (hinit : con.vController.State ≠ VigemState.Connected)
    (herr : (openDevice con dev hidOpenOk exchOk pluginOk now).result = Except.error e) :
    (openDevice con dev hidOpenOk exchOk pluginOk now).con.vController.State
        ≠ VigemState.Connected ∧
    (e = CtrlError.PlugInError →
      (openDevice con dev hidOpenOk exchOk pluginOk now).con.deviceOpen = false) := by
  cases dev with
  | none =>
    refine ⟨hinit, fun hpe => ?_⟩
    rw [hpe] at herr
    simp [openDevice] at herr
  | some d =>
    by_cases h1 : d.product_id = Procon_ID
    · cases hidOpenOk with
      | false =>
        refine ⟨?_, fun hpe => ?_⟩
        · simpa [openDevice, h1] using hinit
        · rw [hpe] at herr
          simp [openDevice, h1] at herr
      | true =>
        cases hex : exchOk 0 with
        | false =>
          refine ⟨?_, fun hpe => ?_⟩
          · simpa [openDevice, h1, hex] using hinit
          · rw [hpe] at herr
            simp [openDevice, h1, hex] at herr
        | true =>
          cases hpl : pluginOk with
          | false =>
            refine ⟨?_, fun hpe => ?_⟩
            · simpa [openDevice, sendSubcommand, h1, hex, hpl] using hinit
            · simp [openDevice, sendSubcommand, h1, hex, hpl]
          | true =>
            rw [hpl] at herr
            simp [openDevice, sendSubcommand, h1, hex] at herr
    · refine ⟨?_, fun hpe => ?_⟩
      · simpa [openDevice, h1] using hinit
      · rw [hpe] at herr
        simp [openDevice, h1] at herr

theorem C7_establishment_errors_witness :
    (openDevice (Controller.construct 0) none true (fun _ => true) true 0).con.vController.State
        ≠ VigemState.Connected ∧
    (CtrlError.DeviceError = CtrlError.PlugInError →
      (openDevice (Controller.construct 0) none true (fun _ => true) true 0).con.deviceOpen
        = false) :=
  C7_establishment_errors (Controller.construct 0) none true (fun _ => true) true 0
    CtrlError.DeviceError (by decide) rfl

/-- C8 fails as stated: querying the outgoing button-bit mapping with a
Button outside its explicit case list is a silent no-op, not a fatal
contract violation — Button.Unknown and Button.Share fall into the
default branch, contribute the zero mask, and leave a report completely
unchanged. -/
theorem C8_counterexample :
    buttonToReportBits Button.Unknown = 0 ∧
    mapButtonToReport Button.Unknown {} = ({} : XUSB_REPORT) ∧
    buttonToReportBits Button.Share = 0 ∧
    mapButtonToReport Button.Share {} = ({} : XUSB_REPORT) := by
  decide

/-- C8 amended: the outgoing mapping is total over the Button
enumeration; every Button outside the explicit case list (None, Share,
Unknown) contributes the zero mask and leaves the report unchanged — a
silent no-op rather than a fatal violation — while the two trigger
buttons set their trigger axis to the maximum without touching the
button field; the fatal out-of-domain contract violation belongs to the
input-side byte-group lookup, not to this table. -/
theorem C8_unmapped_silent (b : Button) (r : XUSB_REPORT)
    (hb : b = Button.None ∨ b = Button.Share ∨ b = Button.Unknown) :
    buttonToReportBits b = 0 ∧ mapButtonToReport b r = r ∧
    (mapButtonToReport Button.LZ r).bLeftTrigger = 255 ∧
    (mapButtonToReport Button.LZ r).wButtons = r.wButtons ∧
    (mapButtonToReport Button.RZ r).bRightTrigger = 255 ∧
    (mapButtonToReport Button.RZ r).wButtons = r.wButtons := by
  rcases hb with h | h | h <;> subst h <;>
    refine ⟨rfl, ?_, rfl, rfl, rfl, rfl⟩ <;>
    · show { r with wButtons := r.wButtons ||| 0 } = r
      rw [Nat.or_zero]

theorem C8_unmapped_silent_witness :
    buttonToReportBits Button.Unknown = 0 ∧
    mapButtonToReport Button.Unknown {} = ({} : XUSB_REPORT) ∧
    (mapButtonToReport Button.LZ {}).bLeftTrigger = 255 ∧
    (mapButtonToReport Button.LZ {}).wButtons = ({} : XUSB_REPORT).wButtons ∧
    (mapButtonToReport Button.RZ {}).bRightTrigger = 255 ∧
    (mapButtonToReport Button.RZ {}).wButtons = ({} : XUSB_REPORT).wButtons :=
  C8_unmapped_silent Button.Unknown {} (Or.inr (Or.inr rfl))

theorem erase_first_id (con : Controller) :
    ∀ (pre post : List Controller), (∀ c ∈ pre, (con.id == c.id) = false) →
      (pre ++ con :: post).eraseP (fun other => con.id == other.id) = pre ++ post := by
  intro pre
  induction pre with
  | nil =>
    intro post _
    simp [List.eraseP_cons]
  | cons p pre' ih =>
    intro post hpre
    simp only [List.cons_append, List.eraseP_cons,
      hpre p (List.mem_cons_self p pre'), cond_false]
    rw [ih post (fun c h => hpre c (List.mem_cons_of_mem _ h))]

/-- C9: destroying a session whose virtual controller is connected and
whose device handle is open performs exactly one unplug, then exactly one
send of the disconnect bytes 0x80 0x05, then the deregistration — in that
order — and the outcome, including the removal of the session's registry
entry, is identical whether the disconnect send succeeds or fails. -/
theorem C9_destructor (regs : List Controller) (con : Controller) (sendOk : Bool)
    (hc : con.vController.State = VigemState.Connected) (hd : con.deviceOpen = true) :
    (destroyController regs con sendOk).2
      = [TeardownAction.unplug, TeardownAction.send disconnect,
         TeardownAction.deregister] ∧
    (∀ ok1 ok2 : Bool, destroyController regs con ok1 = destroyController regs con ok2) ∧
    (∀ pre post : List Controller, regs = pre ++ con :: post →
        (∀ c ∈ pre, (con.id == c.id) = false) →
        (destroyController regs con sendOk).1 = pre ++ post) := by
  refine ⟨?_, fun ok1 ok2 => rfl, ?_⟩
  · simp [destroyController, hc, hd]
  · intro pre post hregs hpre
    subst hregs
    simpa [destroyController] using erase_first_id con pre post hpre

theorem C9_destructor_witness :
    (destroyController [exampleConnected] exampleConnected false).2
      = [TeardownAction.unplug, TeardownAction.send disconnect,
         TeardownAction.deregister] :=
  (C9_destructor [exampleConnected] exampleConnected false rfl rfl).1

theorem C10_decode_bounds_witness :
    pollInput { Controller.construct 0 with deviceOpen := true } (some (fun _ => 0))
      = Except.ok (some (mapInputToReport (decodeInputPacket (fun _ => 0)) {})) :=
  C10_decode_bounds.2.2.1 { Controller.construct 0 with deviceOpen := true }
    (fun _ => 0) rfl (by decide)

end Procon
